import Mathlib

/-!
Verification of the sso-gateway broker protocol against its specification.

The definitions below are a shallow embedding of the JavaScript source:
* `src/middleware/auth.js` — token extraction, custom-token verification,
  and the middleware token minter;
* `src/routes/auth.js` (second, active route draft) — login initiation,
  IdP-callback processing, cookie distribution, logout / global logout,
  and the back-channel handoff broker;
* `src/utils/validation.js` — the (unmounted) login-request validator.

JavaScript truthiness on optional strings is modelled explicitly
(`truthy`, `orDefault`), external effects (the IdP, the axios
server-to-server call, `crypto.randomBytes`) are modelled as explicit
inputs, and every route handler is a pure function from its inputs to a
structured result recording the response, the cookies set and the
server-to-server calls made.
-/

namespace SSOGateway

/-- JS truthiness of an optional string: `undefined`, `null` and `""` are falsy. -/
def truthy : Option String → Bool
  | none => false
  | some s => !(s == "")

/-- JS `v || d` on an optional string value: the default wins on a falsy value. -/
def orDefault (v : Option String) (d : String) : String :=
  match v with
  | none => d
  | some s => if s == "" then d else s

/-- First value bound to key `k` in a query/cookie map. -/
def lookupParam (l : List (String × String)) (k : String) : Option String :=
  (l.find? (fun p => p.1 == k)).map (fun p => p.2)

/-- The parts of an HTTP request read by `extractToken`
(`src/middleware/auth.js`): the Authorization header, the query map, the
cookie map. -/
structure HttpReq where
  authorization : Option String
  query : List (String × String)
  cookies : List (String × String)
deriving DecidableEq, Repr

/-- The check `req.headers.authorization && req.headers.authorization.startsWith('Bearer ')`
(`src/middleware/auth.js:163`). -/
def bearerPresent (req : HttpReq) : Bool :=
  match req.authorization with
  | some a => a.startsWith "Bearer "
  | none => false

/-- Function `extractToken` (`src/middleware/auth.js:159-176`): Authorization header
first, then the `token` query parameter, then the `token` cookie. -/
def extractToken (req : HttpReq) : Option String :=
  if bearerPresent req then
    req.authorization.map (fun a => a.drop 7)
  else if truthy (lookupParam req.query "token") then
    lookupParam req.query "token"
  else if truthy (lookupParam req.cookies "token") then
    lookupParam req.cookies "token"
  else
    none

/-- Environment configuration read via `process.env` by the routes under
verification. -/
structure Env where
  production : Bool
  jwtSecret : Option String
  jwtExpiresIn : Option String
  baseUrl : String
  ssoGatewaySecret : Option String
deriving DecidableEq, Repr

/-- The claims payload projected from the IdP user
(`src/routes/auth.js:322-331`). -/
structure TokenPayload where
  sub : String
  email : String
  name : String
  picture : String
  roles : List String
  permissions : List String
  productId : Option String
deriving DecidableEq, Repr

/-- A token produced by `jwt.sign(payload, key, { expiresIn, issuer })`,
recorded structurally: the payload together with the signing key and
sign options actually used. -/
structure SignedJwt where
  payload : TokenPayload
  key : String
  issuer : Option String
  expiresIn : String
  aud : Option String
deriving DecidableEq, Repr

/-- The jsonwebtoken library rejects a missing or empty signing secret with
`secretOrPrivateKey must have a value`. -/
def secretOrKey : Option String → Except String String
  | none => Except.error "secretOrPrivateKey must have a value"
  | some k =>
    if k == "" then Except.error "secretOrPrivateKey must have a value"
    else Except.ok k

/-- Function `generateToken` from `src/middleware/auth.js:181-186`:
`jwt.sign(payload, process.env.JWT_SECRET, { expiresIn, issuer: 'sso-gateway' })`
— no fallback key, so a missing secret makes the sign call throw. -/
def generateToken (env : Env) (p : TokenPayload) : Except String SignedJwt :=
  (secretOrKey env.jwtSecret).map (fun k =>
    { payload := p
      key := k
      issuer := some "sso-gateway"
      expiresIn := orDefault env.jwtExpiresIn "24h"
      aud := none })

/-- The route-local `generateToken` from `src/routes/auth.js:16-21`:
`jwt.sign(payload, process.env.JWT_SECRET || 'default-secret-key', ...)`
— minting always succeeds, substituting a hard-coded key when the
configured secret is absent. -/
def generateTokenRoutes (env : Env) (p : TokenPayload) : SignedJwt :=
  { payload := p
    key := orDefault env.jwtSecret "default-secret-key"
    issuer := some "sso-gateway"
    expiresIn := orDefault env.jwtExpiresIn "24h"
    aud := none }

/-- An express cookie attribute set. -/
structure CookieOptions where
  httpOnly : Bool
  secure : Bool
  sameSite : String
  path : Option String
  domain : Option String
  maxAge : Option Nat
deriving DecidableEq, Repr

/-- The `cookieOptions` built by the callback route (`src/routes/auth.js:336-347`):
secure / `sameSite: 'None'` / domain `.receipt-flow.io.vn` only when
`NODE_ENV === 'production'`. -/
def callbackCookieOptions (production : Bool) : CookieOptions :=
  { httpOnly := true
    secure := production
    sameSite := if production then "None" else "lax"
    path := some "/"
    domain := if production then some ".receipt-flow.io.vn" else none
    maxAge := some 86400000 }

/-- The `clearCookieOptions` used by `GET /auth/logout`
(`src/routes/auth.js:398-404`): fixed attributes, independent of
`NODE_ENV`. -/
def logoutClearCookieOptions : CookieOptions :=
  { httpOnly := true
    secure := true
    sameSite := "None"
    path := some "/"
    domain := some ".receipt-flow.io.vn"
    maxAge := none }

/-- The scope attributes a browser matches when clearing a cookie:
(domain, path, sameSite, secure). -/
def scopeAttrs (o : CookieOptions) : Option String × Option String × String × Bool :=
  (o.domain, o.path, o.sameSite, o.secure)

/-- The broker-held browser session (`req.session`): the pending-login
fields written by `/auth/login`, and the authenticated-user fields written
by the callback (`src/routes/auth.js:352-361`). -/
structure Session where
  productId : Option String
  returnTo : Option String
  user : Option TokenPayload
  accessToken : Option SignedJwt
  authenticated : Bool
  loginTime : Option String
deriving DecidableEq, Repr

/-- A freshly initialised, empty session (`req.session = {}`). -/
def emptySession : Session :=
  { productId := none
    returnTo := none
    user := none
    accessToken := none
    authenticated := false
    loginTime := none }

/-- The IdP-provided user object `req.oidc.user`; the role/permission
custom claims may be absent (`user['https://sso-gateway.com/roles'] || []`). -/
structure OidcUser where
  sub : String
  email : String
  name : String
  picture : String
  roles : Option (List String)
  permissions : Option (List String)
deriving DecidableEq, Repr

/-- The `tokenPayload` projection built by the callback
(`src/routes/auth.js:322-331`). -/
def projectClaims (user : OidcUser) (productId : Option String) : TokenPayload :=
  { sub := user.sub
    email := user.email
    name := user.name
    picture := user.picture
    roles := user.roles.getD []
    permissions := user.permissions.getD []
    productId := productId }

/-- Per-product back-channel configuration (`getProductConfig`,
`src/routes/auth.js:813-830`). -/
structure ProductConfig where
  baseUrl : String
  audience : String
deriving DecidableEq, Repr

/-- Function `getProductConfig` (`src/routes/auth.js:813-830`). -/
def getProductConfig (production : Bool) : String → Option ProductConfig
  | "pluriell" =>
    some { baseUrl := if production then "https://pluriell.receipt-flow.io.vn" else "http://localhost:3002"
           audience := "pluriell-api" }
  | "receipt" =>
    some { baseUrl := if production then "https://receipt.receipt-flow.io.vn" else "http://localhost:3001"
           audience := "receipt-api" }
  | _ => none

/-- A product-audience-scoped token minted by `generateProductToken`
(`src/routes/auth.js:835-843`): the user payload spread together with
`aud` and `iss`, signed with `JWT_SECRET` for one hour. -/
structure ProductToken where
  payload : TokenPayload
  aud : String
  iss : String
  key : String
  expiresIn : String
deriving DecidableEq, Repr

/-- Function `generateProductToken` (`src/routes/auth.js:835-843`); `jwt.sign`
throws when `JWT_SECRET` is missing, which the surrounding try/catch
converts into a failed handoff. -/
def generateProductToken (env : Env) (p : TokenPayload) (cfg : ProductConfig) :
    Except String ProductToken :=
  (secretOrKey env.jwtSecret).map (fun k =>
    { payload := p
      aud := cfg.audience
      iss := "sso-gateway"
      key := k
      expiresIn := "1h" })

/-- The payload of the server-to-server assertion built by the handoff
broker (`src/routes/auth.js:755-762`). -/
structure AssertionBody where
  token : ProductToken
  user : TokenPayload
  code : String
  exp : Nat
  iss : String
  aud : String
deriving DecidableEq, Repr

/-- The signed assertion produced by `createJWS`
(`src/routes/auth.js:848-853`): HS256 over `SSO_GATEWAY_SECRET`,
five-minute expiry. -/
structure SignedAssertion where
  body : AssertionBody
  key : String
  alg : String
  expiresIn : String
deriving DecidableEq, Repr

/-- Function `createJWS` (`src/routes/auth.js:848-853`). -/
def createJWS (env : Env) (body : AssertionBody) : Except String SignedAssertion :=
  (secretOrKey env.ssoGatewaySecret).map (fun k =>
    { body := body
      key := k
      alg := "HS256"
      expiresIn := "5m" })

/-- The server-to-server POST to the product's session endpoint
(`src/routes/auth.js:765-776`): URL, body `{jws, user, code}`, the
`Authorization: Bearer SSO_GATEWAY_SECRET` header and the 5s timeout. -/
structure S2SCall where
  url : String
  jws : SignedAssertion
  user : TokenPayload
  code : String
  authSecret : Option String
  timeoutMs : Nat
deriving DecidableEq, Repr

/-- Outcome of the axios call, supplied as an external input: a response
with its status and `data.success` flag, or a thrown error (network
failure / timeout / non-2xx rejection), carrying its message. -/
inductive S2SOutcome where
  | response (status : Nat) (success : Bool)
  | failure (message : String)
deriving DecidableEq, Repr

/-- Result of `performBackChannelHandoff` (`src/routes/auth.js:740-808`):
`{success: true, redirectUrl}` or `{success: false, error}`, together with
the list of server-to-server calls actually issued. The redirect URL is
kept structured as a base plus query parameters. -/
inductive HandoffResult where
  | ok (redirectBase : String) (redirectParams : List (String × String)) (calls : List S2SCall)
  | failed (error : String) (calls : List S2SCall)
deriving DecidableEq, Repr

/-- The server-to-server calls issued during a handoff. -/
def HandoffResult.calls : HandoffResult → List S2SCall
  | .ok _ _ cs => cs
  | .failed _ cs => cs

/-- Function `performBackChannelHandoff` (`src/routes/auth.js:740-808`). The
one-time code (`crypto.randomBytes(32).toString('hex')`), the current
time and the axios outcome are explicit inputs. Every throwing step is
caught by the function's own try/catch and becomes `{success: false}`. -/
def performBackChannelHandoff (env : Env) (nowSec : Nat) (code : String)
    (productId : String) (userPayload : TokenPayload) (outcome : S2SOutcome) :
    HandoffResult :=
  match getProductConfig env.production productId with
  | none => HandoffResult.failed ("Unknown product: " ++ productId) []
  | some cfg =>
    match generateProductToken env userPayload cfg with
    | Except.error e => HandoffResult.failed e []
    | Except.ok productToken =>
      match createJWS env { token := productToken, user := userPayload, code := code,
                            exp := nowSec + 300, iss := "sso-gateway", aud := cfg.audience } with
      | Except.error e => HandoffResult.failed e []
      | Except.ok jws =>
        let call : S2SCall :=
          { url := cfg.baseUrl ++ "/api/sessions"
            jws := jws
            user := userPayload
            code := code
            authSecret := env.ssoGatewaySecret
            timeoutMs := 5000 }
        match outcome with
        | S2SOutcome.response st b =>
          if st == 200 && b then
            HandoffResult.ok (cfg.baseUrl ++ "/auth/callback") [("code", code)] [call]
          else
            HandoffResult.failed ("Product session creation failed: " ++ toString st) [call]
        | S2SOutcome.failure m =>
          HandoffResult.failed m [call]

/-- A response sent by the callback route: a redirect (base URL plus
query parameters) or the 500 JSON error of the catch-all. -/
inductive HttpResponse where
  | redirect (base : String) (params : List (String × String))
  | serverError (error : String)
deriving DecidableEq, Repr

/-- A `res.cookie(name, value, options)` call. -/
structure SetCookie where
  name : String
  value : SignedJwt
  options : CookieOptions
deriving DecidableEq, Repr

/-- Everything observable the callback route produces: the response, the
cookies set, the resulting session, and the server-to-server calls made. -/
structure CallbackResult where
  response : HttpResponse
  cookiesSet : List SetCookie
  session : Option Session
  serverCalls : List S2SCall
deriving DecidableEq, Repr

/-- Route `GET /auth/callback` (`src/routes/auth.js:307-388`): read the pending
login from the session, mint the access token, set the `access_token`
cookie, store the authenticated user in the session and delete the
pending fields, then either run the back-channel handoff (truthy
`productId`) or redirect to `returnTo`. A throw from `generateToken`
is the only throwing step and lands in the catch-all 500. -/
def callback (env : Env) (user : OidcUser) (session0 : Option Session)
    (nowSec : Nat) (nowIso : String) (code : String) (outcome : S2SOutcome) :
    CallbackResult :=
  let productId := session0.bind (fun s => s.productId)
  let returnTo := orDefault (session0.bind (fun s => s.returnTo)) "/"
  let tokenPayload := projectClaims user productId
  match generateToken env tokenPayload with
  | Except.error _ =>
    { response := HttpResponse.serverError "Authentication callback failed"
      cookiesSet := []
      session := session0
      serverCalls := [] }
  | Except.ok accessToken =>
    let setCookie : SetCookie :=
      { name := "access_token", value := accessToken,
        options := callbackCookieOptions env.production }
    let session1 := session0.map (fun s =>
      { s with user := some tokenPayload
               accessToken := some accessToken
               authenticated := true
               loginTime := some nowIso
               productId := none
               returnTo := none })
    if truthy productId then
      match performBackChannelHandoff env nowSec code (productId.getD "") tokenPayload outcome with
      | HandoffResult.ok b ps calls =>
        { response := HttpResponse.redirect b ps
          cookiesSet := [setCookie]
          session := session1
          serverCalls := calls }
      | HandoffResult.failed _ calls =>
        { response := HttpResponse.redirect returnTo [("error", "handoff_failed")]
          cookiesSet := [setCookie]
          session := session1
          serverCalls := calls }
    else
      { response := HttpResponse.redirect returnTo []
        cookiesSet := [setCookie]
        session := session1
        serverCalls := [] }

/-- Route `GET /auth/login` (`src/routes/auth.js:275-300`): initialise the
session if absent, store `productId` when truthy, store `returnTo`
(defaulted to `/`) unconditionally, then hand off to `res.oidc.login`.
No validation is applied to either query parameter. -/
def login (query : List (String × String)) (session0 : Option Session) : Session :=
  let returnTo := orDefault (lookupParam query "returnTo") "/"
  let productId := lookupParam query "productId"
  let s0 := session0.getD emptySession
  let s1 := if truthy productId then { s0 with productId := productId } else s0
  { s1 with returnTo := some returnTo }

/-- The response of a logout route: `res.oidc.logout({returnTo})`
(a redirect chain through the IdP ending at `returnTo`) or a plain
`res.redirect(returnTo)`. -/
inductive LogoutResponse where
  | oidcLogout (returnTo : String)
  | redirect (returnTo : String)
deriving DecidableEq, Repr

/-- The URL the browser ultimately lands on for either logout response. -/
def finalDestination : LogoutResponse → String
  | LogoutResponse.oidcLogout r => r
  | LogoutResponse.redirect r => r

/-- The fixed attribute set used for every clear in `/auth/global-logout`
(`src/routes/auth.js:458-464`); note it ignores the domain loop variable
and always names `.receipt-flow.io.vn`. -/
def globalClearOptions : CookieOptions :=
  { httpOnly := true
    secure := true
    sameSite := "None"
    path := some "/"
    domain := some ".receipt-flow.io.vn"
    maxAge := none }

/-- The domain loop of `/auth/global-logout` (`src/routes/auth.js:453`). -/
def globalLogoutDomains : List String := [".receipt-flow.io.vn", "localhost"]

/-- The cookie names cleared by `/auth/global-logout`
(`src/routes/auth.js:454`). -/
def globalLogoutCookieNames : List String :=
  ["access_token", "sso_token", "appSession", "appSession.0", "appSession.1"]

/-- Everything observable `/auth/global-logout` produces. -/
structure LogoutResult where
  clearedCookies : List (String × CookieOptions)
  loggedErrors : List String
  session : Option Session
  response : LogoutResponse
deriving DecidableEq, Repr

/-- Route `GET /auth/global-logout` (`src/routes/auth.js:449-492`): clear every
cookie name under both domain loop iterations, destroy the session (a
destruction error is only logged), then `res.oidc.logout({returnTo})`
when authenticated, else a plain redirect to `returnTo`. `destroyErr`
models a failing session-store destruction. -/
def globalLogout (env : Env) (query : List (String × String)) (session0 : Option Session)
    (authenticated : Bool) (destroyErr : Bool) : LogoutResult :=
  let returnTo := orDefault (lookupParam query "returnTo") env.baseUrl
  { clearedCookies :=
      (globalLogoutDomains.map (fun _d =>
        globalLogoutCookieNames.map (fun n => (n, globalClearOptions)))).flatten
    loggedErrors :=
      if session0.isSome && destroyErr then ["Session destruction error:"] else []
    session := none
    response :=
      if authenticated then LogoutResponse.oidcLogout returnTo
      else LogoutResponse.redirect returnTo }

/-- A response of the custom-token verification middleware. -/
inductive ApiResponse where
  | unauthorized (error : String)
  | ok (payload : TokenPayload)
deriving DecidableEq, Repr

/-- Function `verifyCustomToken` (`src/middleware/auth.js:88-130`). `verify`
stands for `jwt.verify(token, process.env.JWT_SECRET)`; a thrown
`TokenExpiredError` maps to `Token expired`, any other throw to
`Invalid token`. -/
def verifyCustomToken (verify : String → Except String TokenPayload) (req : HttpReq) :
    ApiResponse :=
  match extractToken req with
  | none => ApiResponse.unauthorized "Access token is required"
  | some t =>
    match verify t with
    | Except.error e =>
      if e == "TokenExpiredError" then ApiResponse.unauthorized "Token expired"
      else ApiResponse.unauthorized "Invalid token"
    | Except.ok payload =>
      if payload.productId == some "pluriell" && (payload.sub == "" || payload.email == "") then
        ApiResponse.unauthorized "Invalid token structure for Pluriell"
      else ApiResponse.ok payload

/-- Split a character list at the first `://` separator, returning the
scheme part and the remainder. -/
def splitProtocol : List Char → Option (List Char × List Char)
  | [] => none
  | ':' :: '/' :: '/' :: rest => some ([], rest)
  | ch :: rest =>
    match splitProtocol rest with
    | none => none
    | some (scheme, tail) => some (ch :: scheme, tail)

/-- Model of express-validator's `isURL({ require_protocol: true })` used
by `validateLoginRequest` (`src/utils/validation.js:68-71`): the string
must carry an explicit nonempty scheme separated by `://` from a nonempty
remainder. -/
def isURLRequireProtocol (s : String) : Bool :=
  match splitProtocol s.toList with
  | none => false
  | some (scheme, rest) => !scheme.isEmpty && !rest.isEmpty

/-- The `returnTo` rule of `validateLoginRequest`
(`src/utils/validation.js:63-73`): optional, but when present it must be
a URL with protocol. This rule exists in the source but is mounted on no
route. -/
def validateLoginRequestReturnTo (query : List (String × String)) : Bool :=
  match lookupParam query "returnTo" with
  | none => true
  | some r => isURLRequireProtocol r

/-- Modelled from the spec: the repository contains no `HandoffTicket`
redemption code (the product-side session endpoint that redeems the
one-time code is an external collaborator, `spec.md` section 6), so the
ticket lifecycle is modelled from the spec's words: a ticket
`{code, expiresAt}` with a redeemed flag; redemption honours a code only
when it is known, not yet redeemed and not expired, and marks it
redeemed. -/
structure Ticket where
  code : String
  expiresAt : Nat
  redeemed : Bool
deriving DecidableEq, Repr

/-- Modelled from the spec: redeeming a one-time code against the ticket
store. Returns the updated store on success, `none` on rejection
(unknown, already redeemed, or expired code). -/
def redeem (store : List Ticket) (c : String) (now : Nat) : Option (List Ticket) :=
  match store.find? (fun t => t.code == c) with
  | none => none
  | some t =>
    if t.redeemed then none
    else if t.expiresAt ≤ now then none
    else some (store.map (fun t2 => if t2.code == c then { t2 with redeemed := true } else t2))

/-! ## Fixtures used by concrete witnesses and counterexamples -/

/-- A sample IdP user. -/
def sampleUser : OidcUser :=
  { sub := "auth0|u1"
    email := "u1@example.com"
    name := "U One"
    picture := "pic"
    roles := none
    permissions := none }

/-- A sample minted-token payload. -/
def sampleTokenPayload : TokenPayload :=
  { sub := "auth0|u1"
    email := "u1@example.com"
    name := "U One"
    picture := "pic"
    roles := []
    permissions := []
    productId := none }

/-- A production environment with both secrets configured. -/
def sampleEnv : Env :=
  { production := true
    jwtSecret := some "jwt-secret"
    jwtExpiresIn := none
    baseUrl := "https://sso.receipt-flow.io.vn"
    ssoGatewaySecret := some "gw-secret" }

/-- An environment with no signing secret configured. -/
def envNoSecret : Env :=
  { production := false
    jwtSecret := none
    jwtExpiresIn := none
    baseUrl := "http://localhost:3000"
    ssoGatewaySecret := none }

/-! ## Helper lemmas -/

/-- Marking the matching ticket redeemed commutes with looking the code
up: the map only changes the `redeemed` flag, never the code. -/
theorem redeem_find?_map (store : List Ticket) (c : String) :
    (store.map (fun t2 => if t2.code == c then { t2 with redeemed := true } else t2)).find?
      (fun t => t.code == c) =
    (store.find? (fun t => t.code == c)).map
      (fun t2 => if t2.code == c then { t2 with redeemed := true } else t2) := by
  induction store with
  | nil => rfl
  | cons a l ih =>
    have hfa : ((if a.code == c then { a with redeemed := true } else a).code == c)
        = (a.code == c) := by
      split <;> rfl
    simp only [List.map_cons, List.find?_cons, hfa]
    cases hac : a.code == c
    · simpa using ih
    · have hc : a.code = c := by
        have := hac
        rwa [beq_iff_eq] at this
      simp [hc]

/-! ## Claim theorems -/

/-- C1 (counterexample): with no Authorization header, a `token` query
parameter and a `token` cookie both present, `extractToken` returns the
query-parameter token, not the cookie token — refuting the claimed
header, cookie, query precedence. -/
theorem C1_counterexample :
    extractToken { authorization := none,
                   query := [("token", "query-token")],
                   cookies := [("token", "cookie-token")] } = some "query-token" ∧
    extractToken { authorization := none,
                   query := [("token", "query-token")],
                   cookies := [("token", "cookie-token")] } ≠ some "cookie-token" := by
  decide

/-- C1 (amended): the Token Validator extracts the token by checking the
Authorization header first, then the query parameter, then the cookie:
whenever a truthy query-parameter token is present and no Bearer
Authorization header, the query token is the one extracted, regardless of
any cookie. -/
theorem C1_extraction_precedence (req : HttpReq)
    (hA : bearerPresent req = false)
    (hq : truthy (lookupParam req.query "token") = true) :
    extractToken req = lookupParam req.query "token" := by
  simp [extractToken, hA, hq]

/-- C1 witness: the amended precedence at a concrete request. -/
theorem C1_witness :
    bearerPresent { authorization := none,
                    query := [("token", "qtok")],
                    cookies := [("token", "ctok")] } = false ∧
    extractToken { authorization := none,
                   query := [("token", "qtok")],
                   cookies := [("token", "ctok")] } =
      lookupParam [("token", "qtok")] "token" :=
  ⟨by decide, C1_extraction_precedence _ (by decide) (by decide)⟩

/-- C4 (counterexample): in a non-production environment the scope
attributes (domain, path, sameSite, secure) used to clear the
`access_token` cookie at logout differ from those used to set it at
callback time. -/
theorem C4_counterexample :
    scopeAttrs (callbackCookieOptions false) ≠ scopeAttrs logoutClearCookieOptions := by
  decide

/-- C4 (amended): the logout clear replays the callback set's scope
attributes exactly in production, but not in non-production, where the
set uses `secure := false`, `sameSite := "lax"` and no domain while the
clear uses `secure := true`, `sameSite := "None"` and the
`.receipt-flow.io.vn` domain. -/
theorem C4_clear_scope_matches_only_in_production :
    scopeAttrs (callbackCookieOptions true) = scopeAttrs logoutClearCookieOptions ∧
    scopeAttrs (callbackCookieOptions false) ≠ scopeAttrs logoutClearCookieOptions := by
  decide

/-- C9 (counterexample): with the configured signing secret absent, the
route-local minter succeeds and returns a token signed with the
substituted hard-coded key `default-secret-key` — refuting the claim that
no token-minting operation ever succeeds by substituting a different
key. -/
theorem C9_counterexample :
    generateTokenRoutes envNoSecret sampleTokenPayload =
      { payload := sampleTokenPayload
        key := "default-secret-key"
        issuer := some "sso-gateway"
        expiresIn := "24h"
        aud := none } := by
  decide

/-- C9 (amended): there is no startup check for the signing secret; when
it is absent, the middleware minter fails per-request with the
`jsonwebtoken` signing error, while the route-local minter succeeds by
substituting the hard-coded key `default-secret-key`. -/
theorem C9_missing_secret_behavior (env : Env) (p : TokenPayload)
    (h : env.jwtSecret = none) :
    generateTokenRoutes env p =
      { payload := p
        key := "default-secret-key"
        issuer := some "sso-gateway"
        expiresIn := orDefault env.jwtExpiresIn "24h"
        aud := none } ∧
    generateToken env p = Except.error "secretOrPrivateKey must have a value" := by
  refine ⟨?_, ?_⟩ <;>
    simp [generateTokenRoutes, generateToken, secretOrKey, h, orDefault, Except.map]

/-- C9 witness: both minting behaviors at a concrete secretless
environment. -/
theorem C9_witness :
    envNoSecret.jwtSecret = none ∧
    generateToken envNoSecret sampleTokenPayload =
      Except.error "secretOrPrivateKey must have a value" :=
  ⟨rfl, (C9_missing_secret_behavior envNoSecret sampleTokenPayload rfl).2⟩

/-- C2: on a back-channel handoff that reaches a browser redirect via the
success path, the redirect carries exactly the one-time code as its only
query parameter, every cookie set on that path is http-only, and the
product token travels exactly once, inside the signed assertion of the
single authenticated server-to-server call to the product's session
endpoint. -/
theorem C2_handoff_browser_sees_only_code
    (env : Env) (user : OidcUser) (s : Session) (nowSec : Nat) (nowIso : String)
    (code : String) (pid : String) (cfg : ProductConfig) (k ks : String)
    (hpid : s.productId = some pid) (hne : (pid == "") = false)
    (hcfg : getProductConfig env.production pid = some cfg)
    (hk : env.jwtSecret = some k) (hk2 : (k == "") = false)
    (hks : env.ssoGatewaySecret = some ks) (hks2 : (ks == "") = false) :
    (callback env user (some s) nowSec nowIso code (S2SOutcome.response 200 true)).response =
      HttpResponse.redirect (cfg.baseUrl ++ "/auth/callback") [("code", code)] ∧
    (∀ ck ∈ (callback env user (some s) nowSec nowIso code
        (S2SOutcome.response 200 true)).cookiesSet, ck.options.httpOnly = true) ∧
    (callback env user (some s) nowSec nowIso code (S2SOutcome.response 200 true)).serverCalls =
      [{ url := cfg.baseUrl ++ "/api/sessions"
         jws := { body := { token := { payload := projectClaims user (some pid)
                                       aud := cfg.audience
                                       iss := "sso-gateway"
                                       key := k
                                       expiresIn := "1h" }
                            user := projectClaims user (some pid)
                            code := code
                            exp := nowSec + 300
                            iss := "sso-gateway"
                            aud := cfg.audience }
                  key := ks
                  alg := "HS256"
                  expiresIn := "5m" }
         user := projectClaims user (some pid)
         code := code
         authSecret := some ks
         timeoutMs := 5000 }] := by
  simp [callback, performBackChannelHandoff, generateToken, generateProductToken,
        createJWS, secretOrKey, hpid, hne, hcfg, hk, hk2, hks, hks2, truthy,
        Except.map, callbackCookieOptions, hks]

/-- C2 witness: the success handoff at a concrete production
environment and product. -/
theorem C2_witness :
    getProductConfig sampleEnv.production "pluriell" =
      some { baseUrl := "https://pluriell.receipt-flow.io.vn", audience := "pluriell-api" } ∧
    (callback sampleEnv sampleUser
        (some { emptySession with productId := some "pluriell",
                                  returnTo := some "https://app.example" })
        0 "2026-01-01" "codeX" (S2SOutcome.response 200 true)).response =
      HttpResponse.redirect ("https://pluriell.receipt-flow.io.vn" ++ "/auth/callback")
        [("code", "codeX")] :=
  ⟨by decide,
   (C2_handoff_browser_sees_only_code sampleEnv sampleUser
      { emptySession with productId := some "pluriell", returnTo := some "https://app.example" }
      0 "2026-01-01" "codeX" "pluriell"
      { baseUrl := "https://pluriell.receipt-flow.io.vn", audience := "pluriell-api" }
      "jwt-secret" "gw-secret" rfl (by decide) (by decide) rfl (by decide) rfl (by decide)).1⟩

/-- C3: a handoff one-time code, once redeemed successfully, is rejected
on any second redemption attempt, and an expired code is rejected
outright — the code is never honored twice. -/
theorem C3_ticket_single_use (store store' : List Ticket) (c : String)
    (now now2 : Nat) (t : Ticket) :
    (redeem store c now = some store' → redeem store' c now2 = none) ∧
    (store.find? (fun x => x.code == c) = some t → t.expiresAt ≤ now →
      redeem store c now = none) := by
  constructor
  · intro h
    unfold redeem at h
    split at h
    · exact absurd h (by simp)
    · rename_i u hf
      split_ifs at h with h1 h2
      have hstore : store' = store.map
          (fun t2 => if t2.code == c then { t2 with redeemed := true } else t2) :=
        (Option.some.inj h).symm
      have hu := List.find?_some hf
      have huc : u.code = c := by
        have hb : (u.code == c) = true := by simpa using hu
        rwa [beq_iff_eq] at hb
      unfold redeem
      rw [hstore, redeem_find?_map, hf]
      simp [huc]
  · intro hf hexp
    unfold redeem
    rw [hf]
    by_cases h1 : t.redeemed <;> simp [h1, hexp]

/-- C3 witness: a concrete redeem-then-redeem-again run and a concrete
expired-code rejection. -/
theorem C3_witness :
    redeem [{ code := "abc", expiresAt := 100, redeemed := false }] "abc" 10 =
      some [{ code := "abc", expiresAt := 100, redeemed := true }] ∧
    redeem [{ code := "abc", expiresAt := 100, redeemed := true }] "abc" 50 = none ∧
    redeem [{ code := "exp1", expiresAt := 5, redeemed := false }] "exp1" 10 = none :=
  ⟨by decide,
   (C3_ticket_single_use [{ code := "abc", expiresAt := 100, redeemed := false }]
      [{ code := "abc", expiresAt := 100, redeemed := true }] "abc" 10 50
      { code := "abc", expiresAt := 100, redeemed := false }).1 (by decide),
   (C3_ticket_single_use [{ code := "exp1", expiresAt := 5, redeemed := false }]
      [] "exp1" 10 0
      { code := "exp1", expiresAt := 5, redeemed := false }).2 (by decide) (by decide)⟩

/-- C5: a valid IdP callback arriving with no pending login in the
session still succeeds — it redirects to the default destination `/` and
never errors — and the resulting session has the pending fields
cleared. -/
theorem C5_no_pending_login_defaults (env : Env) (user : OidcUser)
    (session0 : Option Session) (nowSec : Nat) (nowIso : String) (code : String)
    (outcome : S2SOutcome) (k : String)
    (hk : env.jwtSecret = some k) (hk2 : (k == "") = false)
    (hprod : session0.bind (fun s => s.productId) = none)
    (hret : session0.bind (fun s => s.returnTo) = none) :
    (callback env user session0 nowSec nowIso code outcome).response =
      HttpResponse.redirect "/" [] ∧
    ∀ s1, (callback env user session0 nowSec nowIso code outcome).session = some s1 →
      s1.productId = none ∧ s1.returnTo = none := by
  constructor
  · simp [callback, generateToken, secretOrKey, hk, hk2, hprod, hret, truthy,
          orDefault, Except.map]
  · rcases session0 with _ | s0
    · intro s1 h1
      simp [callback, generateToken, secretOrKey, hk, hk2, truthy, Except.map] at h1
    · intro s1 h1
      have hp : s0.productId = none := by simpa using hprod
      have hr : s0.returnTo = none := by simpa using hret
      simp [callback, generateToken, secretOrKey, hk, hk2, truthy, Except.map,
            hp, hr] at h1
      subst h1
      exact ⟨rfl, rfl⟩

/-- C5 witness: the callback at a concrete empty session redirects to the
default destination. -/
theorem C5_witness :
    sampleEnv.jwtSecret = some "jwt-secret" ∧
    (callback sampleEnv sampleUser (some emptySession) 0 "2026-01-01" "c1"
        (S2SOutcome.failure "unused")).response = HttpResponse.redirect "/" [] :=
  ⟨rfl,
   (C5_no_pending_login_defaults sampleEnv sampleUser (some emptySession) 0 "2026-01-01"
      "c1" (S2SOutcome.failure "unused") "jwt-secret" rfl (by decide) rfl rfl).1⟩

/-- C6: regardless of authentication state, session-store destruction
failure or any downstream best-effort failure, global logout leaves no
broker-held session and terminates in a redirect whose final destination
is `returnTo` (defaulting to the base URL). -/
theorem C6_global_logout_always_redirects (env : Env) (query : List (String × String))
    (session0 : Option Session) (authenticated : Bool) (destroyErr : Bool) :
    (globalLogout env query session0 authenticated destroyErr).session = none ∧
    finalDestination (globalLogout env query session0 authenticated destroyErr).response =
      orDefault (lookupParam query "returnTo") env.baseUrl := by
  cases authenticated <;> simp [globalLogout, finalDestination]

/-- C7: when the server-to-server handoff call fails — non-2xx status,
falsy success flag, timeout or thrown error — the callback redirects the
browser back to `returnTo` with an error indicator, and exactly one
handoff call was made (no retry). -/
theorem C7_handoff_failure_redirects_no_retry
    (env : Env) (user : OidcUser) (s : Session) (nowSec : Nat) (nowIso : String)
    (code : String) (pid : String) (cfg : ProductConfig) (k ks : String)
    (outcome : S2SOutcome)
    (hpid : s.productId = some pid) (hne : (pid == "") = false)
    (hcfg : getProductConfig env.production pid = some cfg)
    (hk : env.jwtSecret = some k) (hk2 : (k == "") = false)
    (hks : env.ssoGatewaySecret = some ks) (hks2 : (ks == "") = false)
    (hfail : outcome ≠ S2SOutcome.response 200 true) :
    (callback env user (some s) nowSec nowIso code outcome).response =
      HttpResponse.redirect (orDefault s.returnTo "/") [("error", "handoff_failed")] ∧
    (callback env user (some s) nowSec nowIso code outcome).serverCalls.length = 1 := by
  have hout : ∀ st b, outcome = S2SOutcome.response st b → (st == 200 && b) = false := by
    intro st b hob
    by_contra hsb
    rw [Bool.not_eq_false, Bool.and_eq_true, beq_iff_eq] at hsb
    exact hfail (by rw [hob, hsb.1, hsb.2])
  rcases outcome with ⟨st, b⟩ | m
  · have hsb := hout st b rfl
    simp [callback, performBackChannelHandoff, generateToken, generateProductToken,
          createJWS, secretOrKey, hpid, hne, hcfg, hk, hk2, hks, hks2, truthy,
          Except.map, hsb]
  · simp [callback, performBackChannelHandoff, generateToken, generateProductToken,
          createJWS, secretOrKey, hpid, hne, hcfg, hk, hk2, hks, hks2, truthy,
          Except.map]

/-- C7 witness: a concrete failed handoff (HTTP 500) redirects back to
`returnTo` with the error indicator. -/
theorem C7_witness :
    S2SOutcome.response 500 false ≠ S2SOutcome.response 200 true ∧
    (callback sampleEnv sampleUser
        (some { emptySession with productId := some "pluriell",
                                  returnTo := some "https://app.example" })
        0 "2026-01-01" "c2" (S2SOutcome.response 500 false)).response =
      HttpResponse.redirect (orDefault (some "https://app.example") "/")
        [("error", "handoff_failed")] :=
  ⟨by decide,
   (C7_handoff_failure_redirects_no_retry sampleEnv sampleUser
      { emptySession with productId := some "pluriell", returnTo := some "https://app.example" }
      0 "2026-01-01" "c2" "pluriell"
      { baseUrl := "https://pluriell.receipt-flow.io.vn", audience := "pluriell-api" }
      "jwt-secret" "gw-secret" (S2SOutcome.response 500 false)
      rfl (by decide) (by decide) rfl (by decide) rfl (by decide) (by decide)).1⟩

/-- C8: evaluated at the failing input `returnTo=notaurl`, the login
route stores the non-absolute value although the (unmounted)
`validateLoginRequest` rule rejects it, and the later callback uses it
verbatim as the redirect target — the code never validates `returnTo`. -/
theorem C8_unvalidated_return_to_eval :
    validateLoginRequestReturnTo [("returnTo", "notaurl")] = false ∧
    (login [("returnTo", "notaurl")] none).returnTo = some "notaurl" ∧
    (callback sampleEnv sampleUser (some (login [("returnTo", "notaurl")] none))
        0 "2026-01-01" "c3" (S2SOutcome.failure "unused")).response =
      HttpResponse.redirect "notaurl" [] := by
  decide

/-- C10: every cookie the callback sets is named `access_token`, while
the validator's cookie fallback reads only the cookie named `token`; a
request presenting nothing but the broker-set cookie is therefore
rejected with 401 `Access token is required`. -/
theorem C10_cookie_name_mismatch :
    (∀ (env : Env) (user : OidcUser) (session0 : Option Session) (nowSec : Nat)
        (nowIso : String) (code : String) (outcome : S2SOutcome),
      ((callback env user session0 nowSec nowIso code outcome).cookiesSet.all
        (fun ck => ck.name == "access_token")) = true) ∧
    (∀ (t : String) (verify : String → Except String TokenPayload),
      verifyCustomToken verify
        { authorization := none, query := [], cookies := [("access_token", t)] } =
        ApiResponse.unauthorized "Access token is required") := by
  constructor
  · intro env user session0 nowSec nowIso code outcome
    rcases h : generateToken env (projectClaims user (session0.bind fun s => s.productId))
      with e | tok
    · simp [callback, h]
    · simp only [callback, h]
      split
      · rcases hr : performBackChannelHandoff env nowSec code
            ((session0.bind fun s => s.productId).getD "")
            (projectClaims user (session0.bind fun s => s.productId)) outcome
          with ⟨rb, rp, rc⟩ | ⟨re, rc⟩ <;> simp
      · simp
  · intro t verify
    rfl

end SSOGateway
